import Mathlib

/-
A shallow embedding of the Mention_bot script (src/main.py): a Telegram bot
keeping a per-chat ledger of opted-in users, persisted as JSON, with a
batched mention broadcast.  Python dicts are modelled as insertion-ordered
association lists; Python dict keys that may be either `int` or `str`
(the user-identifier keys) are modelled by `PyKey`; the JSON backing file
is modelled by `FileState`.
-/

set_option autoImplicit false

namespace MentionBot

/-- A Python dict key as used for user identifiers in the script:
`button_click` stores `user.id` (a Python `int`) as a key, while
`json.load` always produces `str` keys.  In Python, `10 == "10"` is
`False`, which the derived decidable equality reflects. -/
inductive PyKey where
  | int (n : Int)
  | str (s : String)
deriving DecidableEq, Repr

/-- `str(k)` on a dict key, as applied by `json.dump` (which stringifies
`int` keys) and by the f-string building a mention token. -/
def pyKeyStr : PyKey → String
  | .int n => toString n
  | .str s => s

/-- A Python dict, modelled as an insertion-ordered association list with
(at most) one entry per key. -/
abbrev Dict (α β : Type) : Type := List (α × β)

/-- Python `d[k]` / `k in d`: the value stored under `k`, if present. -/
def dlookup {α β : Type} [DecidableEq α] (d : Dict α β) (k : α) : Option β :=
  match d with
  | [] => none
  | (k', v) :: rest => if k' = k then some v else dlookup rest k

/-- Python `d[k] = v`: overwrite in place if the key is present (keeping
its position), otherwise append the new entry at the end. -/
def dset {α β : Type} [DecidableEq α] (d : Dict α β) (k : α) (v : β) : Dict α β :=
  match d with
  | [] => [(k, v)]
  | (k', v') :: rest => if k' = k then (k, v) :: rest else (k', v') :: dset rest k v

/-- Building a Python dict by inserting entries left to right, as
`json.load` materialises a JSON object. -/
def dictOfList {α β : Type} [DecidableEq α] (l : List (α × β)) : Dict α β :=
  l.foldl (fun d p => dset d p.1 p.2) []

/-- The in-memory ledger `interacted_users_per_chat`: chat id (always
stored stringified) to a dict from user key to first name. -/
abbrev Ledger : Type := Dict String (Dict PyKey String)

/-- The JSON text of the backing file, abstracted to its parse: an object
mapping strings to objects mapping strings to strings.  A list models the
written key order, including any duplicate keys `json.dump` may emit. -/
abbrev JsonLedger : Type := Dict String (Dict String String)

/-- The backing file `interacted_users_per_chat.json`: missing, present
but not valid JSON, or holding a JSON object. -/
inductive FileState where
  | missing
  | malformed
  | content (j : JsonLedger)
deriving DecidableEq

/-- What `json.dump` writes for one chat's dict: `int` keys are
stringified, `str` keys are kept. -/
def serializeScope (m : Dict PyKey String) : Dict String String :=
  m.map (fun p => (pyKeyStr p.1, p.2))

/-- What `json.dump(interacted_users_per_chat, ...)` writes. -/
def serializeLedger (L : Ledger) : JsonLedger :=
  L.map (fun p => (p.1, serializeScope p.2))

/-- What `json.load` rebuilds for one chat's JSON object: a dict with
`str` keys, inserting entries in written order (a duplicate key keeps its
first position and last value, as in CPython). -/
def jsonObjToDict (entries : Dict String String) : Dict PyKey String :=
  dictOfList (entries.map (fun p => (PyKey.str p.1, p.2)))

/-- What `json.load` rebuilds for the whole file. -/
def jsonToLedger (j : JsonLedger) : Ledger :=
  dictOfList (j.map (fun p => (p.1, jsonObjToDict p.2)))

/-- `load_interacted_users` (src/main.py lines 21-30): a missing file and
a JSON decode error are both caught, leaving the global at its current
value (empty at startup); otherwise the parsed object replaces it.  The
function is total: no exception escapes to the caller. -/
def load_interacted_users (current : Ledger) (f : FileState) : Ledger :=
  match f with
  | .missing => current
  | .malformed => current
  | .content j => jsonToLedger j

/-- `save_interacted_users` (src/main.py lines 33-36): overwrite the file
with the serialized ledger. -/
def save_interacted_users (L : Ledger) : FileState :=
  .content (serializeLedger L)

/-- The outcome of a button press, as reported by the two distinct
confirmation messages of `button_click`. -/
inductive Outcome where
  | added
  | alreadyPresent
deriving DecidableEq, Repr

/-- The mutable process state the handlers touch: the global dict and the
backing file. -/
structure BotState where
  ledger : Ledger
  file : FileState
deriving DecidableEq

/-- `button_click` (src/main.py lines 48-71): record the pressing user
under the chat.  `chat_id` is stringified; `user.id` is used as-is (an
`int`).  On a fresh user the ledger is mutated and saved to the file; on
a repeat press nothing is written. -/
def button_click (st : BotState) (chatId : Int) (userId : Int)
    (firstName : String) : Outcome × BotState :=
  let cid := toString chatId
  let L0 := if (dlookup st.ledger cid).isSome then st.ledger else dset st.ledger cid []
  let scope := (dlookup L0 cid).getD []
  if (dlookup scope (PyKey.int userId)).isSome then
    (.alreadyPresent, { st with ledger := L0 })
  else
    let L1 := dset L0 cid (dset scope (PyKey.int userId) firstName)
    (.added, { ledger := L1, file := save_interacted_users L1 })

/-- The result of one `reply_text` attempt during the mention loop:
delivered, raised `RetryAfter` carrying a server delay, or raised some
other `TelegramError`. -/
inductive SendResult where
  | ok
  | retryAfter (delay : Nat)
  | err
deriving DecidableEq, Repr

/-- The external Telegram API as observed by one `mention_all` run:
the member-count query (`TelegramError` or a count), the per-ID
`get_chat_member` lookups (`none` on `TelegramError`), and the outcome of
the k-th mention send attempt of the run. -/
structure Env where
  memberCount : Except Unit Nat
  getMember : Nat → Option Int
  send : Nat → SendResult

/-- One observable action of a `mention_all` run, in order. -/
inductive Event where
  | sentNotice (text : String)
  | sentMention (text : String) (tokens : List String)
  | slept (secs : Nat)
  | loggedError
  | loggedWarning
deriving DecidableEq, Repr

/-- The mention token `f'[{name}](tg://user?id={user_id})'`
(src/main.py line 114), with the dict key rendered by `str`. -/
def formatMention (k : PyKey) (name : String) : String :=
  "[" ++ name ++ "](tg://user?id=" ++ pyKeyStr k ++ ")"

/-- The text of one batch message: `"Увага: " + ", ".join(batch)`. -/
def composeBatch (tokens : List String) : String :=
  "Увага: " ++ String.intercalate ", " tokens

/-- `range(0, len(users_to_mention), 5)` with slices `[i:i+5]`
(src/main.py line 125): consecutive batches of at most five tokens. -/
def chunks5 (l : List String) : List (List String) :=
  (List.range ((l.length + 4) / 5)).map (fun i => (l.drop (5 * i)).take 5)

/-- The send loop of `mention_all` (src/main.py lines 125-133), with `k`
the index of the next send attempt.  A delivered batch is followed by
`sleep(1)`; a `RetryAfter` is logged, waited out for the server-given
delay, and the batch is resent exactly once; an exception from the resend
or any other `TelegramError` from the first attempt is uncaught, ending
the loop (the `Bool` records that the handler raised). -/
def sendBatches (send : Nat → SendResult) (k : Nat) :
    List (List String) → List Event × Bool
  | [] => ([], false)
  | b :: bs =>
    match send k with
    | .ok =>
      let r := sendBatches send (k + 1) bs
      (.sentMention (composeBatch b) b :: .slept 1 :: r.1, r.2)
    | .retryAfter d =>
      match send (k + 1) with
      | .ok =>
        let r := sendBatches send (k + 2) bs
        (.loggedWarning :: .slept d :: .sentMention (composeBatch b) b :: r.1, r.2)
      | _ => ([.loggedWarning, .slept d], true)
    | .err => ([], true)

/-- Reply when the chat has no recorded users (src/main.py line 89). -/
def NO_USERS_MSG : String :=
  "Немає користувачів, які взаємодіяли з ботом у цьому чаті."

/-- Reply when the member-count query fails (src/main.py line 109). -/
def FETCH_FAIL_MSG : String :=
  "Не вдалося отримати список учасників чату."

/-- Reply when the mention list is empty (src/main.py lines 120-121). -/
def NO_MENTION_MSG : String :=
  "Немає користувачів для згадки, які взаємодіяли з ботом і перебувають у цьому чаті."

/-- `mention_all` (src/main.py lines 84-133): look up the (stringified)
chat id in the ledger; an absent or empty scope gets the no-users notice.
Otherwise query the member count — on `TelegramError` log, send a notice
and return.  The per-ID member lookups are attempted for ids 1..count,
failures skipped, and the collected list is unused (the membership filter
on line 116 is commented out).  Every ledger entry of the scope becomes a
mention token, and the tokens are sent in batches of five.  Returns the
event trace, whether the handler raised, and the resulting state. -/
def mention_all (st : BotState) (chatId : Int) (env : Env) :
    List Event × Bool × BotState :=
  let cid := toString chatId
  let scope := (dlookup st.ledger cid).getD []
  if scope.isEmpty then
    ([Event.sentNotice NO_USERS_MSG], false, st)
  else
    match env.memberCount with
    | .error _ => ([Event.loggedError, Event.sentNotice FETCH_FAIL_MSG], false, st)
    | .ok n =>
      let _members := (List.range' 1 n).filterMap env.getMember
      let users_to_mention := scope.map (fun p => formatMention p.1 p.2)
      if users_to_mention.isEmpty then
        ([Event.sentNotice NO_MENTION_MSG], false, st)
      else
        let r := sendBatches env.send 0 (chunks5 users_to_mention)
        (r.1, r.2, st)

/-- The token batches actually delivered in a trace. -/
def mentionBatches (t : List Event) : List (List String) :=
  t.filterMap (fun e =>
    match e with
    | .sentMention _ tokens => some tokens
    | _ => none)

/-- The plain notices delivered in a trace. -/
def noticeTexts (t : List Event) : List String :=
  t.filterMap (fun e =>
    match e with
    | .sentNotice s => some s
    | _ => none)

/-! ### Dictionary lemmas -/

theorem dlookup_dset_self {α β : Type} [DecidableEq α] (d : Dict α β) (k : α) (v : β) :
    dlookup (dset d k v) k = some v := by
  induction d with
  | nil => simp [dset, dlookup]
  | cons p rest ih =>
    by_cases h : p.1 = k
    · simp [dset, h, dlookup]
    · simp [dset, h, dlookup, ih]

theorem dset_eq_append {α β : Type} [DecidableEq α] (d : Dict α β) (k : α) (v : β)
    (h : k ∉ d.map Prod.fst) : dset d k v = d ++ [(k, v)] := by
  induction d with
  | nil => rfl
  | cons p rest ih =>
    have hne : p.1 ≠ k := by
      intro hk
      exact h (by simp [hk])
    have hrest : k ∉ rest.map Prod.fst := by
      intro hk
      exact h (by simp [hk])
    simp [dset, hne, ih hrest]

theorem foldl_dset_of_nodup {α β : Type} [DecidableEq α] (l : List (α × β)) :
    ∀ acc : Dict α β, ((acc ++ l).map Prod.fst).Nodup →
      l.foldl (fun d p => dset d p.1 p.2) acc = acc ++ l := by
  induction l with
  | nil =>
    intro acc _
    simp
  | cons p rest ih =>
    intro acc h
    have hcons : ((acc ++ [p]) ++ rest).map Prod.fst = ((acc ++ p :: rest).map Prod.fst) := by
      simp
    have hmem : p.1 ∉ acc.map Prod.fst := by
      intro hin
      rw [List.map_append, List.nodup_append] at h
      exact (h.2.2 hin) (by simp)
    rw [List.foldl_cons, dset_eq_append acc p.1 p.2 hmem]
    have := ih (acc ++ [p]) (by rw [hcons]; exact h)
    rw [this]
    simp

theorem dictOfList_of_nodup {α β : Type} [DecidableEq α] (l : List (α × β))
    (h : (l.map Prod.fst).Nodup) : dictOfList l = l := by
  have := foldl_dset_of_nodup l [] (by simpa using h)
  simpa [dictOfList] using this

/-! ### Batching lemmas -/

theorem chunks5_cons (l : List String) (h : l ≠ []) :
    chunks5 l = l.take 5 :: chunks5 (l.drop 5) := by
  have hlen : 1 ≤ l.length := List.length_pos.mpr h
  have h5 : (l.length + 4) / 5 = ((l.drop 5).length + 4) / 5 + 1 := by
    rw [List.length_drop]
    omega
  unfold chunks5
  rw [h5, List.range_succ_eq_map, List.map_cons, List.map_map]
  refine congrArg₂ List.cons (by simp) ?_
  refine List.map_congr_left (fun i _ => ?_)
  show List.take 5 (List.drop (5 * (i + 1)) l) = List.take 5 (List.drop (5 * i) (List.drop 5 l))
  rw [List.drop_drop]
  congr 2
  omega

theorem chunks5_length (l : List String) : (chunks5 l).length = (l.length + 4) / 5 := by
  simp [chunks5]

theorem chunks5_batch_le (l : List String) (b : List String) (hb : b ∈ chunks5 l) :
    b.length ≤ 5 := by
  simp only [chunks5, List.mem_map, List.mem_range] at hb
  obtain ⟨i, _, rfl⟩ := hb
  rw [List.length_take]
  exact min_le_left _ _

theorem chunks5_flatten (l : List String) : (chunks5 l).flatten = l := by
  by_cases h : l = []
  · subst h
    rfl
  · rw [chunks5_cons l h, List.flatten_cons, chunks5_flatten (l.drop 5),
      List.take_append_drop]
termination_by l.length
decreasing_by
  have : 0 < l.length := List.length_pos.mpr h
  simp only [List.length_drop]
  omega

/-! ### Send-loop lemmas -/

/-- The trace of a run in which every send attempt is delivered. -/
def okTrace (bs : List (List String)) : List Event :=
  (bs.map (fun b => [Event.sentMention (composeBatch b) b, Event.slept 1])).flatten

theorem sendBatches_all_ok (send : Nat → SendResult) (hs : ∀ j, send j = SendResult.ok) :
    ∀ (bs : List (List String)) (k : Nat), sendBatches send k bs = (okTrace bs, false) := by
  intro bs
  induction bs with
  | nil =>
    intro k
    rfl
  | cons b rest ih =>
    intro k
    simp [sendBatches, hs k, okTrace, ih (k + 1)]

theorem mentionBatches_okTrace (bs : List (List String)) :
    mentionBatches (okTrace bs) = bs := by
  induction bs with
  | nil => rfl
  | cons b rest ih =>
    simp only [okTrace, List.map_cons, List.flatten_cons] at ih ⊢
    simp [mentionBatches, List.filterMap_append] at ih ⊢
    exact ih

/-! ### Opt-in handler lemmas -/

theorem button_click_added (st : BotState) (chatId userId : Int) (firstName : String)
    (h : dlookup ((dlookup st.ledger (toString chatId)).getD []) (PyKey.int userId) = none) :
    (button_click st chatId userId firstName).1 = Outcome.added
    ∧ dlookup (button_click st chatId userId firstName).2.ledger (toString chatId)
        = some (dset ((dlookup st.ledger (toString chatId)).getD []) (PyKey.int userId)
            firstName) := by
  cases hA : dlookup st.ledger (toString chatId) with
  | none =>
    rw [hA] at h
    simp only [Option.getD_none] at h ⊢
    simp [button_click, hA, dlookup_dset_self, dlookup]
  | some scope0 =>
    rw [hA] at h
    simp only [Option.getD_some] at h ⊢
    simp [button_click, hA, h, dlookup_dset_self]

theorem button_click_present (st : BotState) (chatId userId : Int) (firstName : String)
    (h : (dlookup ((dlookup st.ledger (toString chatId)).getD [])
        (PyKey.int userId)).isSome = true) :
    button_click st chatId userId firstName = (Outcome.alreadyPresent, st) := by
  cases hA : dlookup st.ledger (toString chatId) with
  | none =>
    rw [hA] at h
    simp [dlookup] at h
  | some scope0 =>
    rw [hA] at h
    simp only [Option.getD_some] at h
    have hst : { st with ledger := st.ledger } = st := rfl
    simp [button_click, hA, h, hst]

/-! ### Claim theorems -/

/-- Claim C5: within one process run, pressing the opt-in button twice for
the same user and chat yields `Added` then `AlreadyPresent`; the second
press leaves the whole state unchanged, and in particular the number of
entries recorded for that chat is unchanged by the second press. -/
theorem C5_optin_twice (st : BotState) (chatId userId : Int) (firstName : String)
    (h : dlookup ((dlookup st.ledger (toString chatId)).getD []) (PyKey.int userId) = none) :
    (button_click st chatId userId firstName).1 = Outcome.added
    ∧ (button_click (button_click st chatId userId firstName).2 chatId userId firstName).1
        = Outcome.alreadyPresent
    ∧ (button_click (button_click st chatId userId firstName).2 chatId userId firstName).2
        = (button_click st chatId userId firstName).2
    ∧ ((dlookup (button_click (button_click st chatId userId firstName).2 chatId userId
          firstName).2.ledger (toString chatId)).getD []).length
        = ((dlookup (button_click st chatId userId firstName).2.ledger
            (toString chatId)).getD []).length := by
  obtain ⟨h1, h2⟩ := button_click_added st chatId userId firstName h
  have hpresent : (dlookup ((dlookup (button_click st chatId userId firstName).2.ledger
      (toString chatId)).getD []) (PyKey.int userId)).isSome = true := by
    rw [h2]
    simp [dlookup_dset_self]
  have hsecond := button_click_present (button_click st chatId userId firstName).2
    chatId userId firstName hpresent
  refine ⟨h1, ?_, ?_, ?_⟩
  · rw [hsecond]
  · rw [hsecond]
  · rw [hsecond]

/-- Claim C7: `load_interacted_users` never raises to its caller: a
missing backing file and structurally invalid (non-JSON) content are both
caught, leaving the in-memory ledger at its current value — the empty
dict at startup — while valid content replaces it with the parsed
mapping; the operation is total on every file state. -/
theorem C7_load_never_raises (current : Ledger) :
    load_interacted_users current FileState.missing = current
    ∧ load_interacted_users current FileState.malformed = current
    ∧ ∀ j : JsonLedger,
        load_interacted_users current (FileState.content j) = jsonToLedger j :=
  ⟨rfl, rfl, fun _ => rfl⟩

/-- Claim C9: an opt-in event with outcome `Added` is immediately followed
by a full persist of the entire updated ledger to the backing file, while
an event with outcome `AlreadyPresent` performs no write, leaving the
file contents unchanged. -/
theorem C9_persist_on_added (st : BotState) (chatId userId : Int) (firstName : String) :
    ((button_click st chatId userId firstName).1 = Outcome.added →
      (button_click st chatId userId firstName).2.file
        = save_interacted_users (button_click st chatId userId firstName).2.ledger)
    ∧ ((button_click st chatId userId firstName).1 = Outcome.alreadyPresent →
      (button_click st chatId userId firstName).2.file = st.file) := by
  simp only [button_click]
  split <;> split <;>
    first
    | exact ⟨fun hcontr => Outcome.noConfusion hcontr, fun _ => rfl⟩
    | exact ⟨fun _ => rfl, fun hcontr => Outcome.noConfusion hcontr⟩

/-- Witness for C9: from the empty state a press is `Added` and the file
holds the serialization of the new ledger; a repeat press from the
resulting one-entry state is `AlreadyPresent` and leaves the file as it
was. -/
theorem C9_persist_on_added_witness :
    (button_click ⟨[], FileState.missing⟩ 1 10 "Anna").2.file
      = save_interacted_users (button_click ⟨[], FileState.missing⟩ 1 10 "Anna").2.ledger
    ∧ (button_click ⟨[("1", [(PyKey.int 10, "Anna")])], FileState.missing⟩ 1 10 "Anna").2.file
      = FileState.missing :=
  ⟨(C9_persist_on_added ⟨[], FileState.missing⟩ 1 10 "Anna").1 (by decide),
   (C9_persist_on_added ⟨[("1", [(PyKey.int 10, "Anna")])], FileState.missing⟩ 1 10 "Anna").2
     (by decide)⟩

/-- Witness for C5 at a concrete input: user 10 pressing twice in chat 1
from the empty state. -/
theorem C5_optin_twice_witness :
    (button_click ⟨[], FileState.missing⟩ 1 10 "Anna").1 = Outcome.added
    ∧ (button_click (button_click ⟨[], FileState.missing⟩ 1 10 "Anna").2 1 10 "Anna").1
        = Outcome.alreadyPresent
    ∧ (button_click (button_click ⟨[], FileState.missing⟩ 1 10 "Anna").2 1 10 "Anna").2
        = (button_click ⟨[], FileState.missing⟩ 1 10 "Anna").2
    ∧ ((dlookup (button_click (button_click ⟨[], FileState.missing⟩ 1 10 "Anna").2 1 10
          "Anna").2.ledger (toString 1)).getD []).length
        = ((dlookup (button_click ⟨[], FileState.missing⟩ 1 10 "Anna").2.ledger
            (toString 1)).getD []).length :=
  C5_optin_twice ⟨[], FileState.missing⟩ 1 10 "Anna" (by decide)

/-- Claim C10: a `mention_all` run never mutates the in-memory ledger and
never writes the ledger file: the state it returns equals the input state
in every branch, whatever messages were sent or errors occurred. -/
theorem C10_broadcast_frame (st : BotState) (chatId : Int) (env : Env) :
    (mention_all st chatId env).2.2 = st := by
  simp only [mention_all]
  repeat' split
  all_goals rfl

/-- Whether a user key is already in the string form that `json.load`
produces. -/
def isStrKey : PyKey → Bool
  | .int _ => false
  | .str _ => true

/-- Claim C1 fails as stated: a ledger holding the `int` user key written
by the opt-in handler does not round-trip through the file — `json.dump`
stringifies the key, so the loaded mapping holds the string "10" where
the handler wrote the int 10, and the two mappings are not equal. -/
theorem C1_roundtrip_counterexample :
    load_interacted_users []
        (save_interacted_users [("1", [(PyKey.int 10, "Anna")])])
      ≠ [("1", [(PyKey.int 10, "Anna")])] := by
  decide

/-- Claim C1 (amended): persisting with `save_interacted_users` and
loading with `load_interacted_users` reproduces an equal mapping for
every ledger whose keys are unique at both levels and whose user keys
are all strings; user keys written as ints by the opt-in handler come
back as their decimal string forms instead. -/
theorem C1_roundtrip (current : Ledger) (L : Ledger)
    (hchats : (L.map Prod.fst).Nodup)
    (husers : ∀ pm ∈ L, (pm.2.map Prod.fst).Nodup ∧ ∀ pu ∈ pm.2, isStrKey pu.1 = true) :
    load_interacted_users current (save_interacted_users L) = L := by
  show jsonToLedger (serializeLedger L) = L
  unfold jsonToLedger serializeLedger
  rw [List.map_map]
  have hpoint : ∀ pm ∈ L,
      ((fun p => (p.1, jsonObjToDict p.2)) ∘ fun p => (p.1, serializeScope p.2)) pm = pm := by
    intro pm hpm
    obtain ⟨hnd, hstr⟩ := husers pm hpm
    simp only [Function.comp_apply]
    have hscope : jsonObjToDict (serializeScope pm.2) = pm.2 := by
      unfold jsonObjToDict serializeScope
      rw [List.map_map]
      have hmap : pm.2.map ((fun p => (PyKey.str p.1, p.2)) ∘ fun p => (pyKeyStr p.1, p.2))
          = pm.2 := by
        have hid : ∀ pu ∈ pm.2,
            ((fun p => (PyKey.str p.1, p.2)) ∘ fun p => (pyKeyStr p.1, p.2)) pu = pu := by
          intro pu hpu
          have := hstr pu hpu
          cases hk : pu.1 with
          | int m =>
            rw [hk] at this
            exact absurd this (by simp [isStrKey])
          | str s =>
            simp only [Function.comp_apply, hk, pyKeyStr]
            rw [← hk]
        calc pm.2.map ((fun p => (PyKey.str p.1, p.2)) ∘ fun p => (pyKeyStr p.1, p.2))
            = pm.2.map id := List.map_congr_left hid
          _ = pm.2 := List.map_id pm.2
      rw [hmap]
      exact dictOfList_of_nodup pm.2 hnd
    rw [hscope]
  have hmapsL :
      L.map ((fun p => (p.1, jsonObjToDict p.2)) ∘ fun p => (p.1, serializeScope p.2)) = L :=
    (List.map_congr_left hpoint).trans (by simp)
  rw [hmapsL]
  exact dictOfList_of_nodup L hchats

/-- Witness for C1 (amended) at a concrete string-keyed ledger. -/
theorem C1_roundtrip_witness :
    load_interacted_users []
        (save_interacted_users [("1", [(PyKey.str "10", "Anna")])])
      = [("1", [(PyKey.str "10", "Anna")])] :=
  C1_roundtrip [] [("1", [(PyKey.str "10", "Anna")])] (by decide)
    (by
      intro pm hpm
      simp only [List.mem_singleton] at hpm
      subst hpm
      refine ⟨by decide, ?_⟩
      intro pu hpu
      simp only [List.mem_singleton] at hpu
      subst hpu
      decide)

/-- Claim C2's persist/load clause fails on the code, a slip against the
spec's at-most-one-entry invariant (the handler stores int user keys
while `str(chat.id)` shows string keys were intended, and the loaded file
always holds string keys): user 10 opts in to chat 1, the state is saved
and reloaded, and the same user's second press is reported `Added` again,
leaving two entries — key "10" and key 10 — for that user in that chat. -/
theorem C2_duplicate_entry_after_reload :
    (button_click
        ⟨load_interacted_users (button_click ⟨[], FileState.missing⟩ 1 10 "Anna").2.ledger
            (button_click ⟨[], FileState.missing⟩ 1 10 "Anna").2.file,
          (button_click ⟨[], FileState.missing⟩ 1 10 "Anna").2.file⟩
        1 10 "Anna").1 = Outcome.added
    ∧ (button_click
        ⟨load_interacted_users (button_click ⟨[], FileState.missing⟩ 1 10 "Anna").2.ledger
            (button_click ⟨[], FileState.missing⟩ 1 10 "Anna").2.file,
          (button_click ⟨[], FileState.missing⟩ 1 10 "Anna").2.file⟩
        1 10 "Anna").2.ledger
      = [("1", [(PyKey.str "10", "Anna"), (PyKey.int 10, "Anna")])] := by
  decide

/-- Claim C3 fails as stated: `mention_all` performs no scope-type check
at all.  Invoked from chat 777 — a positive id, which on Telegram is a
one-to-one chat — whose ledger holds an opted-in user, the broadcast
sends a mention message and no rejection notice. -/
theorem C3_counterexample :
    mentionBatches (mention_all ⟨[("777", [(PyKey.int 10, "Anna")])], FileState.missing⟩
        777 ⟨Except.ok 2, fun _ => none, fun _ => SendResult.ok⟩).1
      = [["[Anna](tg://user?id=10)"]]
    ∧ noticeTexts (mention_all ⟨[("777", [(PyKey.int 10, "Anna")])], FileState.missing⟩
        777 ⟨Except.ok 2, fun _ => none, fun _ => SendResult.ok⟩).1
      = [] := by
  decide

/-- Claim C3 (amended): the code draws no distinction between group and
one-to-one scopes; a broadcast invoked from any chat — a one-to-one chat
in particular — whose scope has no recorded opt-ins sends exactly one
outbound message, the no-users notice, with zero mention messages and no
further action. -/
theorem C3_no_optins_single_notice (st : BotState) (chatId : Int) (env : Env)
    (h : (dlookup st.ledger (toString chatId)).getD [] = []) :
    (mention_all st chatId env).1 = [Event.sentNotice NO_USERS_MSG]
    ∧ mentionBatches (mention_all st chatId env).1 = []
    ∧ noticeTexts (mention_all st chatId env).1 = [NO_USERS_MSG]
    ∧ (mention_all st chatId env).2.1 = false := by
  have hempty : ((dlookup st.ledger (toString chatId)).getD []).isEmpty = true := by
    rw [h]
    rfl
  refine ⟨?_, ?_, ?_, ?_⟩ <;> simp [mention_all, hempty, mentionBatches, noticeTexts]

/-- Witness for C3 (amended): broadcasting in chat 777 from the empty
ledger. -/
theorem C3_no_optins_single_notice_witness :
    (mention_all ⟨[], FileState.missing⟩ 777
        ⟨Except.ok 2, fun _ => none, fun _ => SendResult.ok⟩).1
      = [Event.sentNotice NO_USERS_MSG]
    ∧ mentionBatches (mention_all ⟨[], FileState.missing⟩ 777
        ⟨Except.ok 2, fun _ => none, fun _ => SendResult.ok⟩).1 = []
    ∧ noticeTexts (mention_all ⟨[], FileState.missing⟩ 777
        ⟨Except.ok 2, fun _ => none, fun _ => SendResult.ok⟩).1 = [NO_USERS_MSG]
    ∧ (mention_all ⟨[], FileState.missing⟩ 777
        ⟨Except.ok 2, fun _ => none, fun _ => SendResult.ok⟩).2.1 = false :=
  C3_no_optins_single_notice ⟨[], FileState.missing⟩ 777
    ⟨Except.ok 2, fun _ => none, fun _ => SendResult.ok⟩ (by decide)

/-- Claim C4: with N opted-in users recorded for the chat (N ≥ 1), a
successful member-count query and no send failure, the broadcast sends
exactly ceil(N/5) mention messages, each carrying at most 5 mention
tokens, and the tokens across the messages partition the scope's ledger
entries in their original insertion order; the handler does not raise. -/
theorem C4_broadcast_batches (st : BotState) (chatId : Int) (env : Env)
    (scope : Dict PyKey String) (n : Nat)
    (hs : dlookup st.ledger (toString chatId) = some scope)
    (hne : scope ≠ [])
    (hn : env.memberCount = Except.ok n)
    (hok : ∀ j, env.send j = SendResult.ok) :
    mentionBatches (mention_all st chatId env).1
        = chunks5 (scope.map (fun p => formatMention p.1 p.2))
    ∧ (mentionBatches (mention_all st chatId env).1).length = (scope.length + 4) / 5
    ∧ (∀ b ∈ mentionBatches (mention_all st chatId env).1, b.length ≤ 5)
    ∧ (mentionBatches (mention_all st chatId env).1).flatten
        = scope.map (fun p => formatMention p.1 p.2)
    ∧ (mention_all st chatId env).2.1 = false := by
  cases scope with
  | nil => exact absurd rfl hne
  | cons p rest =>
    have hrun : mention_all st chatId env
        = (okTrace (chunks5 ((p :: rest).map (fun q => formatMention q.1 q.2))), false, st) := by
      simp [mention_all, hs, hn, sendBatches_all_ok env.send hok]
    rw [hrun]
    refine ⟨mentionBatches_okTrace _, ?_, ?_, ?_, rfl⟩
    · rw [mentionBatches_okTrace, chunks5_length, List.length_map]
    · intro b hb
      rw [mentionBatches_okTrace] at hb
      exact chunks5_batch_le _ b hb
    · rw [mentionBatches_okTrace, chunks5_flatten]

/-- Witness for C4: six opted-in users in chat 5 with an all-successful
environment. -/
theorem C4_broadcast_batches_witness :
    mentionBatches (mention_all
        ⟨[("5", [(PyKey.int 1, "A"), (PyKey.int 2, "B"), (PyKey.int 3, "C"),
            (PyKey.int 4, "D"), (PyKey.int 5, "E"), (PyKey.int 6, "F")])],
          FileState.missing⟩ 5 ⟨Except.ok 3, fun _ => none, fun _ => SendResult.ok⟩).1
      = chunks5 ([(PyKey.int 1, "A"), (PyKey.int 2, "B"), (PyKey.int 3, "C"),
          (PyKey.int 4, "D"), (PyKey.int 5, "E"),
          (PyKey.int 6, "F")].map (fun p => formatMention p.1 p.2))
    ∧ (mentionBatches (mention_all
        ⟨[("5", [(PyKey.int 1, "A"), (PyKey.int 2, "B"), (PyKey.int 3, "C"),
            (PyKey.int 4, "D"), (PyKey.int 5, "E"), (PyKey.int 6, "F")])],
          FileState.missing⟩ 5 ⟨Except.ok 3, fun _ => none, fun _ => SendResult.ok⟩).1).length
      = (([(PyKey.int 1, "A"), (PyKey.int 2, "B"), (PyKey.int 3, "C"), (PyKey.int 4, "D"),
          (PyKey.int 5, "E"), (PyKey.int 6, "F")] : Dict PyKey String).length + 4) / 5 :=
  ⟨(C4_broadcast_batches
      ⟨[("5", [(PyKey.int 1, "A"), (PyKey.int 2, "B"), (PyKey.int 3, "C"),
          (PyKey.int 4, "D"), (PyKey.int 5, "E"), (PyKey.int 6, "F")])], FileState.missing⟩
      5 ⟨Except.ok 3, fun _ => none, fun _ => SendResult.ok⟩
      [(PyKey.int 1, "A"), (PyKey.int 2, "B"), (PyKey.int 3, "C"),
        (PyKey.int 4, "D"), (PyKey.int 5, "E"), (PyKey.int 6, "F")]
      3 rfl (by decide) rfl (fun _ => rfl)).1,
   (C4_broadcast_batches
      ⟨[("5", [(PyKey.int 1, "A"), (PyKey.int 2, "B"), (PyKey.int 3, "C"),
          (PyKey.int 4, "D"), (PyKey.int 5, "E"), (PyKey.int 6, "F")])], FileState.missing⟩
      5 ⟨Except.ok 3, fun _ => none, fun _ => SendResult.ok⟩
      [(PyKey.int 1, "A"), (PyKey.int 2, "B"), (PyKey.int 3, "C"),
        (PyKey.int 4, "D"), (PyKey.int 5, "E"), (PyKey.int 6, "F")]
      3 rfl (by decide) rfl (fun _ => rfl)).2.1⟩

/-- Claim C6 fails as stated: chat 5 has six opted-in users (two batches);
the first batch's send raises `RetryAfter 3`, the loop sleeps 3 and
resends once, the resend also fails, and the handler raises — the second
batch is never attempted, although the claim says remaining batches are
still attempted. -/
theorem C6_counterexample :
    (mention_all ⟨[("5", [(PyKey.int 1, "A"), (PyKey.int 2, "B"), (PyKey.int 3, "C"),
          (PyKey.int 4, "D"), (PyKey.int 5, "E"), (PyKey.int 6, "F")])],
        FileState.missing⟩ 5
        ⟨Except.ok 7, fun _ => none,
          fun k => if k = 0 then SendResult.retryAfter 3
            else if k = 1 then SendResult.err else SendResult.ok⟩).1
      = [Event.loggedWarning, Event.slept 3]
    ∧ (mention_all ⟨[("5", [(PyKey.int 1, "A"), (PyKey.int 2, "B"), (PyKey.int 3, "C"),
          (PyKey.int 4, "D"), (PyKey.int 5, "E"), (PyKey.int 6, "F")])],
        FileState.missing⟩ 5
        ⟨Except.ok 7, fun _ => none,
          fun k => if k = 0 then SendResult.retryAfter 3
            else if k = 1 then SendResult.err else SendResult.ok⟩).2.1
      = true
    ∧ (chunks5 ([(PyKey.int 1, "A"), (PyKey.int 2, "B"), (PyKey.int 3, "C"),
        (PyKey.int 4, "D"), (PyKey.int 5, "E"),
        (PyKey.int 6, "F")].map (fun p => formatMention p.1 p.2))).length = 2 := by
  refine ⟨?_, ?_, ?_⟩ <;> decide

/-- Claim C6 (amended): when a batch's send fails with a rate-limit error
carrying a server delay, the loop pauses exactly that delay and resends
the same batch exactly once; if the resend succeeds the remaining batches
are attempted, but if the resend also fails the exception is unhandled
and the broadcast ends — the remaining batches are NOT attempted. -/
theorem C6_retry_once (send : Nat → SendResult) (k d : Nat) (b : List String)
    (bs : List (List String)) (h : send k = SendResult.retryAfter d) :
    (send (k + 1) = SendResult.ok →
      sendBatches send k (b :: bs)
        = (Event.loggedWarning :: Event.slept d
            :: Event.sentMention (composeBatch b) b :: (sendBatches send (k + 2) bs).1,
          (sendBatches send (k + 2) bs).2))
    ∧ (send (k + 1) ≠ SendResult.ok →
      sendBatches send k (b :: bs) = ([Event.loggedWarning, Event.slept d], true)) := by
  constructor
  · intro hok
    simp [sendBatches, h, hok]
  · intro hfail
    cases hr : send (k + 1) with
    | ok => exact absurd hr hfail
    | retryAfter e => simp [sendBatches, h, hr]
    | err => simp [sendBatches, h, hr]

/-- Witness for C6 (amended): a send oracle that rate-limits the first
attempt with delay 3 and delivers the resend. -/
theorem C6_retry_once_witness :
    sendBatches (fun k => if k = 0 then SendResult.retryAfter 3 else SendResult.ok) 0 [["t"]]
      = ([Event.loggedWarning, Event.slept 3, Event.sentMention (composeBatch ["t"]) ["t"]],
        false) := by
  have h := (C6_retry_once (fun k => if k = 0 then SendResult.retryAfter 3 else SendResult.ok)
    0 3 ["t"] [] (by decide)).1 (by decide)
  exact h

/-- Claim C8: during a broadcast over a non-empty scope, the per-ID
chat-member lookups are invisible — the run is unchanged under any
replacement of the lookup oracle, so individual failures are silently
skipped — whereas a member-count failure is logged, answered with a
user-visible notice in the invoking chat, and aborts the broadcast with
zero mention messages sent and without raising. -/
theorem C8_member_count_failure (st : BotState) (chatId : Int) (envF : Env)
    (scope : Dict PyKey String)
    (hs : dlookup st.ledger (toString chatId) = some scope)
    (hne : scope ≠ [])
    (hf : envF.memberCount = Except.error ()) :
    (mention_all st chatId envF).1 = [Event.loggedError, Event.sentNotice FETCH_FAIL_MSG]
    ∧ mentionBatches (mention_all st chatId envF).1 = []
    ∧ (mention_all st chatId envF).2.1 = false
    ∧ ∀ (env : Env) (g g' : Nat → Option Int),
        mention_all st chatId { env with getMember := g }
          = mention_all st chatId { env with getMember := g' } := by
  cases scope with
  | nil => exact absurd rfl hne
  | cons p rest =>
    have hrun : mention_all st chatId envF
        = ([Event.loggedError, Event.sentNotice FETCH_FAIL_MSG], false, st) := by
      simp [mention_all, hs, hf]
    rw [hrun]
    exact ⟨rfl, rfl, rfl, fun env g g' => rfl⟩

/-- Witness for C8: one opted-in user in chat 5, a failing member-count
query, and two different per-ID lookup oracles. -/
theorem C8_member_count_failure_witness :
    (mention_all ⟨[("5", [(PyKey.int 1, "A")])], FileState.missing⟩ 5
        ⟨Except.error (), fun _ => none, fun _ => SendResult.ok⟩).1
      = [Event.loggedError, Event.sentNotice FETCH_FAIL_MSG]
    ∧ mention_all ⟨[("5", [(PyKey.int 1, "A")])], FileState.missing⟩ 5
        { (⟨Except.ok 2, fun _ => none, fun _ => SendResult.ok⟩ : Env) with
          getMember := fun _ => none }
      = mention_all ⟨[("5", [(PyKey.int 1, "A")])], FileState.missing⟩ 5
        { (⟨Except.ok 2, fun _ => none, fun _ => SendResult.ok⟩ : Env) with
          getMember := fun i => some (Int.ofNat i) } :=
  ⟨(C8_member_count_failure ⟨[("5", [(PyKey.int 1, "A")])], FileState.missing⟩ 5
      ⟨Except.error (), fun _ => none, fun _ => SendResult.ok⟩
      [(PyKey.int 1, "A")] rfl (by decide) rfl).1,
   (C8_member_count_failure ⟨[("5", [(PyKey.int 1, "A")])], FileState.missing⟩ 5
      ⟨Except.error (), fun _ => none, fun _ => SendResult.ok⟩
      [(PyKey.int 1, "A")] rfl (by decide) rfl).2.2.2
     ⟨Except.ok 2, fun _ => none, fun _ => SendResult.ok⟩
     (fun _ => none) (fun i => some (Int.ofNat i))⟩

end MentionBot
